import Mathlib

/-!
# Verification of the APLI 10199 label generator

Shallow embedding of the label-composition core of
`src/streamlit_etiquetador.py` (label composer, vial-identity builder,
color allocation, page-continuation arithmetic), together with theorems
settling the specification claims.

Modelling conventions:
* Python strings are `String`; `str.strip()` is `String.pyStrip` (the inputs
  relevant to the claims use only ASCII whitespace).
* Python dicts are association lists (`List (κ × α)`) with Python's
  lookup/overwrite semantics (`pyDictGet` / `pyDictSet`); insertion order
  is preserved as in CPython.
* Python numbers in JSON-shaped state are `PyVal` (int / float / str).
  `int(float(s))` is modelled exactly: the decimal literal is parsed to
  its exact value, rounded to the nearest IEEE-754 double (round half to
  even, computed with integer arithmetic), truncated toward zero;
  overflow to infinity makes `int(...)` raise `OverflowError`, giving the
  default.  The literals `inf`/`infinity`/`nan`, on which `int(...)` also
  raises, are rejected at the grammar — the same defaulted outcome.
* Fallible Python operations (`int(x)`, `float(x)`) return `Option`.

The string primitives (`pyStrip`, `pyLower`, ...) are defined directly on
the character list so that every definition evaluates inside the kernel
(core's `Substring`-based versions do not reduce definitionally).
-/

/-- Python's `str.strip()` whitespace set (ASCII part). -/
def isPyWhitespace (c : Char) : Bool :=
  c = ' ' || c = '\t' || c = '\n' || c = '\r' || c = '\x0b' || c = '\x0c'

/-- Python `s.strip()`. -/
def String.pyStrip (s : String) : String :=
  ⟨((s.data.dropWhile isPyWhitespace).reverse.dropWhile isPyWhitespace).reverse⟩

/-- Python `s.lower()` (ASCII; all color strings are ASCII). -/
def String.pyLower (s : String) : String := ⟨s.data.map Char.toLower⟩

/-- Python `s.endswith(t)`. -/
def String.pyEndsWith (s t : String) : Bool := t.data.isSuffixOf s.data

namespace Etiquetador

/-- Python `sep.join(parts)`. -/
def pyJoin (sep : String) : List String → String
  | [] => ""
  | x :: xs => xs.foldl (fun a b => a ++ sep ++ b) x

/-- `CM_TO_PT`-derived geometry is irrelevant to the claims; only the page
capacity matters. -/
def TOTAL_ETIQUETAS_PAGINA : Nat := 80

def COLS : Nat := 5

def STD_A_COLOR : String := "#1f77b4"

def STD_B_COLOR : String := "#ffbf00"

def BLANCO_COLOR : String := "#ecf0f1"

def REACTIVO_COLOR : String := "#f39c12"

def PLACEBO_COLOR : String := "#ff0000"

/-- The forbidden/reserved set from the source (all entries are already
lower-case, so the source's `c.lower()` is the identity on them). -/
def FORBIDDEN_COLORS : List String :=
  [BLANCO_COLOR, STD_A_COLOR, STD_B_COLOR, REACTIVO_COLOR, PLACEBO_COLOR,
   "#e6194b", "#f58231"]

/-- The literal fallback palette of `build_sample_palette` (the
`matplotlib` branch is environment-dependent; the spec notes the palette
may equivalently be a static literal list, and both branches produce 12
distinct non-forbidden entries). -/
def fallbackPalette : List String :=
  ["#2ca02c", "#9467bd", "#8c564b", "#e377c2", "#17becf", "#7f7f7f",
   "#bcbd22", "#98df8a", "#c5b0d5", "#6b6bd3", "#00a5a5", "#b59ddb",
   "#9edae5", "#c49c94", "#dbdb8d"]

/-- The `for e in extras: ... if len(filtered) >= 12: break` loop of
`build_sample_palette`. -/
def paletteExtendLoop : List String → List String → List String
  | acc, [] => acc
  | acc, e :: es =>
    let acc' := if e ∈ acc then acc else acc ++ [e]
    if acc'.length ≥ 12 then acc' else paletteExtendLoop acc' es

/-- `build_sample_palette` (fallback branch). -/
def build_sample_palette : List String :=
  let palette := fallbackPalette.map String.pyLower
  let filtered := palette.filter (fun c =>
    decide (c ∉ FORBIDDEN_COLORS) &&
    decide (c ∉ [STD_A_COLOR.pyLower, STD_B_COLOR.pyLower,
                 BLANCO_COLOR.pyLower, REACTIVO_COLOR.pyLower]))
  let extras := ["#2f4f4f", "#6a5acd", "#20b2aa", "#00ced1", "#4b0082",
                 "#556b2f", "#4682b4", "#8b4513"]
  (paletteExtendLoop filtered extras).take 12

def SAMPLE_PALETTE : List String := build_sample_palette

/-- `allocate_lote_color`.  Python's `%` on `int` is Euclidean remainder,
matching `Int.emod`; the in-range `pool[...]` access is rendered with a
default that can only fire on the (impossible) out-of-range case. -/
def allocate_lote_color (index : Int) : String :=
  let pool := SAMPLE_PALETTE.filter (fun c => decide (c.pyLower ∉ FORBIDDEN_COLORS))
  if pool.isEmpty then "#6b6bd3"
  else pool.getD (index % (pool.length : Int)).toNat "#6b6bd3"

/-- `re.search(r"[A-Za-z]", v)` of `_format_with_unit`. -/
def containsLetter (s : String) : Bool :=
  s.data.any (fun c => ('A' ≤ c && c ≤ 'Z') || ('a' ≤ c && c ≤ 'z'))

/-- `_format_with_unit(value, unit)`. -/
def _format_with_unit (value : Option String) (unit : String) : String :=
  match value with
  | none => ""
  | some value =>
    let v := value.pyStrip
    if v = "" then ""
    else if containsLetter v then v
    else v ++ unit

/-! ## Python numeric parsing

`safe_int_from_str` is `int(float(str(s).strip()))` under a
try/except-everything.  We model the decimal-literal grammar accepted by
`float` (optional sign, digit runs with single interior underscores,
optional fraction, optional exponent) exactly, and the value by exact
round-to-nearest-even onto the IEEE binary64 grid. -/

/-- Continuation of a digit run, `(digit | "_" digit)*`: underscores are
legal only between digits.  A malformed underscore stops the run, leaving
the offending characters unconsumed (so a full-consumption check at the
end rejects the literal, as Python does). -/
def digitRunCont : List Char → List Char × List Char
  | [] => ([], [])
  | c :: cs =>
    if c.isDigit then
      let p := digitRunCont cs
      (c :: p.1, p.2)
    else if c = '_' then
      match cs with
      | d :: cs' =>
        if d.isDigit then
          let p := digitRunCont cs'
          (d :: p.1, p.2)
        else ([], c :: cs)
      | [] => ([], [c])
    else ([], c :: cs)

/-- Consume a Python digit run `digit (digit | "_" digit)*`: the run must
START with a digit (a leading underscore, as in `"_1"`, is not part of
any run and makes `int`/`float` raise); returns the digits (underscores
dropped) and the unconsumed rest. -/
def digitRun : List Char → List Char × List Char
  | [] => ([], [])
  | c :: cs =>
    if c.isDigit then
      let p := digitRunCont cs
      (c :: p.1, p.2)
    else ([], c :: cs)

def natOfDigits (ds : List Char) : Nat :=
  ds.foldl (fun n c => 10 * n + (c.toNat - '0'.toNat)) 0

/-- Optional leading sign; returns `true` for `-`. -/
def parseSignChars : List Char → Bool × List Char
  | '+' :: cs => (false, cs)
  | '-' :: cs => (true, cs)
  | cs => (false, cs)

/-- Mantissa of a float literal: `digits [. digits] | . digits`; returns
the mantissa digits as a number together with the number of fractional
digits. -/
def parseMantissa (cs : List Char) : Option ((Nat × Nat) × List Char) :=
  let p := digitRun cs
  match p.2 with
  | '.' :: r2 =>
    let q := digitRun r2
    if p.1.isEmpty && q.1.isEmpty then none
    else some ((natOfDigits (p.1 ++ q.1), q.1.length), q.2)
  | _ => if p.1.isEmpty then none else some ((natOfDigits p.1, 0), p.2)

/-- Optional exponent `e|E sign? digits`; a present but malformed
exponent is a hard failure. -/
def parseExpPart (cs : List Char) : Option (Int × List Char) :=
  match cs with
  | c :: r1 =>
    if c = 'e' || c = 'E' then
      let sp := parseSignChars r1
      let dp := digitRun sp.2
      if dp.1.isEmpty then none
      else some ((if sp.1 then -(natOfDigits dp.1 : Int) else (natOfDigits dp.1 : Int)), dp.2)
    else some (0, cs)
  | [] => some (0, [])

/-- `float(s)` on an already-stripped string, for finite decimal
literals: the exact value is `mantissa * 10 ^ exp10` for the returned
pair `(mantissa, exp10)`. -/
def pyParseFloatParts (s : String) : Option (Int × Int) :=
  let sp := parseSignChars s.data
  match parseMantissa sp.2 with
  | none => none
  | some (m, r2) =>
    match parseExpPart r2 with
    | none => none
    | some (e, r3) =>
      if r3.isEmpty then
        some ((if sp.1 then -(m.1 : Int) else (m.1 : Int)), e - (m.2 : Int))
      else none

/-- Round-half-to-even of the fraction `P / Q` (`Q > 0`). -/
def rneDiv (P Q : Nat) : Nat :=
  let k := P / Q
  let r := P % Q
  if 2 * r < Q then k
  else if Q < 2 * r then k + 1
  else if k % 2 = 0 then k else k + 1

/-- `Nat.log2` by structural recursion on a fuel bound, so that it
reduces inside the kernel (only `log2 n` of the fuel is consumed). -/
def natLog2Aux : Nat → Nat → Nat
  | 0, _ => 0
  | fuel + 1, n => if 2 ≤ n then natLog2Aux fuel (n / 2) + 1 else 0

def natLog2 (n : Nat) : Nat := natLog2Aux n n

/-- `2 ^ n` by tail-recursive iteration (the `^` notation's evaluation is
guarded at large exponents, which double rounding needs). -/
def pow2Aux : Nat → Nat → Nat
  | 0, acc => acc
  | n + 1, acc => pow2Aux n (2 * acc)

def pow2 (n : Nat) : Nat := pow2Aux n 1

/-- `10 ^ n`, likewise. -/
def pow10Aux : Nat → Nat → Nat
  | 0, acc => acc
  | n + 1, acc => pow10Aux n (10 * acc)

def pow10 (n : Nat) : Nat := pow10Aux n 1

/-- Round the non-negative rational `p / q` (`q > 0`) to the nearest
IEEE-754 binary64 value (round half to even), computed exactly with
integer arithmetic.  Returns the double's exact value as
`significand * 2 ^ exponent`; `none` when the result overflows to
infinity (rounded magnitude reaching `2 ^ 1024`).  Subnormal results use
the fixed exponent `-1074`. -/
def doubleRoundPos (p q : Nat) : Option (Nat × Int) :=
  let c : Int := (natLog2 p : Int) - (natLog2 q : Int)
  -- whether 2 ^ e ≤ p / q
  let le2 : Int → Bool := fun e =>
    if 0 ≤ e then q * pow2 e.toNat ≤ p else q ≤ p * pow2 (-e).toNat
  -- the binary magnitude: 2 ^ e2 ≤ p / q < 2 ^ (e2 + 1) (for p > 0)
  let e2 : Int := if le2 c then c else c - 1
  let E : Int := if e2 < -1022 then -1074 else e2 - 52
  let PQ : Nat × Nat :=
    if 0 ≤ E then (p, q * pow2 E.toNat) else (p * pow2 (-E).toNat, q)
  let n := rneDiv PQ.1 PQ.2
  if 0 ≤ E then
    if pow2 1024 ≤ n * pow2 E.toNat then none else some (n, E)
  else some (n, E)

/-- Python's `int(float(...))` applied to the exact decimal value
`mantissa * 10 ^ exp10`: round to the nearest double, then truncate
toward zero; `none` models the `OverflowError` raised by `int` on an
infinite float. -/
def pyFloatTruncate (mantissa exp10 : Int) : Option Int :=
  let p : Nat := mantissa.natAbs * pow10 (max exp10 0).toNat
  let q : Nat := pow10 (max (-exp10) 0).toNat
  match doubleRoundPos p q with
  | none => none
  | some nE =>
    let t : Nat :=
      if 0 ≤ nE.2 then nE.1 * pow2 nE.2.toNat else nE.1 / pow2 (-nE.2).toNat
    some (if mantissa < 0 then -(t : Int) else (t : Int))

/-- Truncation toward zero of a rational, as Python's `int(float)`. -/
def ratTruncate (q : ℚ) : Int := q.num.tdiv q.den

/-- `safe_int_from_str(s, default)`: `None` or blank gives the default;
otherwise `int(float(t))`, with the default on any failure (unparsable
literal, or `OverflowError` from an infinite float). -/
def safe_int_from_str (s : Option String) (default : Int) : Int :=
  match s with
  | none => default
  | some s =>
    let t := s.pyStrip
    if t = "" then default
    else
      match pyParseFloatParts t with
      | some p =>
        match pyFloatTruncate p.1 p.2 with
        | some n => n
        | none => default
      | none => default

/-- A JSON-shaped Python scalar as stored in the state dicts. -/
inductive PyVal where
  | int : Int → PyVal
  | float : ℚ → PyVal
  | str : String → PyVal
deriving DecidableEq

/-- Python `int(s)` for a string: strip, optional sign, digit run. -/
def pyParseIntStr (s : String) : Option Int :=
  let t := s.pyStrip
  let sp := parseSignChars t.data
  let dp := digitRun sp.2
  if dp.1.isEmpty || !dp.2.isEmpty then none
  else some (if sp.1 then -(natOfDigits dp.1 : Int) else (natOfDigits dp.1 : Int))

/-- Python `int(x)` on a JSON scalar (`none` = raises). -/
def pyIntOfVal : PyVal → Option Int
  | .int n => some n
  | .float q => some (ratTruncate q)
  | .str s => pyParseIntStr s

/-! ## Python dicts as association lists -/

/-- `d.get(k)` / `d[k]` lookup. -/
def pyDictGet {κ α : Type} [DecidableEq κ] : List (κ × α) → κ → Option α
  | [], _ => none
  | p :: ps, k => if p.1 = k then some p.2 else pyDictGet ps k

/-- `d[k] = v`: overwrite in place if present, else append (CPython
insertion-order semantics). -/
def pyDictSet {κ α : Type} [DecidableEq κ] : List (κ × α) → κ → α → List (κ × α)
  | [], k, v => [(k, v)]
  | p :: ps, k, v => if p.1 = k then (k, v) :: ps else p :: pyDictSet ps k v

/-! ## Data model

`RunState` is the JSON-shaped state dict handed to
`build_etiquetas_from_state` (fields the composer reads); purely
presentational fields (`nombre_prod`, `analista`, ...) are omitted, as are
fields the composer never reads. -/

structure Dilucion where
  v_pip : String
  v_final : String
  id_text : String
deriving DecidableEq

structure DilucionMuestra where
  v_pip : String
  v_final : String
  per_lote_ids : List String
deriving DecidableEq

structure Lote where
  name : String
deriving DecidableEq

structure RunState where
  dup_patron : Bool
  peso_patron : String
  vol_patron : String
  dup_muestra : Bool
  uniformidad : Bool
  num_uniform_samples : String
  muestra_peso : String
  muestra_vol : String
  texto_blanco : String
  texto_wash : String
  lotes : List Lote
  diluciones_std : List Dilucion
  diluciones_muestra : List DilucionMuestra
  incluir_placebo : Bool
  placebo_peso : String
  placebo_vol : String
  diluciones_placebo : List Dilucion
  reactivos : List String
  incluir_viales : Bool
  viales_multiplicadores : List (String × PyVal)
  id_color_map : List (String × String)
  lote_color_map : List (Nat × String)
deriving DecidableEq

/-- A label record `(tipo, id_text, color_hex)`. -/
abbrev Etiqueta := String × String × String

/-- A vial identity `{"id": ..., "type": ..., "lot_index": ...}`. -/
structure VialItem where
  id : String
  type : String
  lot_index : Option Nat
deriving DecidableEq

/-- `(lote.get("name","") or "").strip() or f"Lote{i+1}"`. -/
def lote_display (lote : Lote) (i : Nat) : String :=
  if lote.name.pyStrip = "" then "Lote" ++ toString (i + 1) else lote.name.pyStrip

/-- Clamped uniformity count `max(1, min(safe_int_from_str(n, 1), 100))`. -/
def uniform_count (state : RunState) : Int :=
  max 1 (min (safe_int_from_str (some state.num_uniform_samples) 1) 100)

/-! ## Identity Builder (`construir_ids_viales_from_state`) -/

def blanco_id (state : RunState) : String :=
  let tb := state.texto_blanco.pyStrip
  if tb ≠ "" then "Blanco (" ++ tb ++ ")" else "Blanco"

def wash_id (state : RunState) : String :=
  let tw := state.texto_wash.pyStrip
  if tw ≠ "" then "Wash (" ++ tw ++ ")" else "Wash"

/-- The manual-id collection loop of `construir_ids_viales_from_state`
(deduplicating, first occurrence kept). -/
def manual_ids_dedup (ds : List Dilucion) : List String :=
  ds.foldl (fun acc d =>
    let idv := d.id_text.pyStrip
    if idv ≠ "" ∧ idv ∉ acc then acc ++ [idv] else acc) []

/-- The `items` list of `construir_ids_viales_from_state` before
de-duplication. -/
def construir_items_raw (state : RunState) : List VialItem :=
  [⟨blanco_id state, "blank", none⟩, ⟨wash_id state, "blank", none⟩]
  ++ (if state.dup_patron then
        [⟨"STD A", "std", none⟩, ⟨"STD B", "std", none⟩]
      else [⟨"STD", "std", none⟩])
  ++ ((manual_ids_dedup state.diluciones_std).flatMap (fun idv =>
        if state.dup_patron then
          [⟨idv ++ "/A", "std", none⟩, ⟨idv ++ "/B", "std", none⟩]
        else [⟨idv, "std", none⟩]))
  ++ (state.lotes.enum.flatMap (fun p =>
        let i := p.1
        let lote_name := lote_display p.2 i
        if state.uniformidad then
          (List.range (uniform_count state).toNat).map (fun k =>
            ⟨lote_name ++ "/" ++ toString (k + 1), "sample", some i⟩)
        else if state.dup_muestra then
          [⟨lote_name ++ "/A", "sample", some i⟩, ⟨lote_name ++ "/B", "sample", some i⟩]
        else [⟨lote_name, "sample", some i⟩]))
  ++ (if state.incluir_placebo then [⟨"Placebo", "placebo", none⟩] else [])
  ++ (state.reactivos.flatMap (fun r =>
        if r.pyStrip ≠ "" then [⟨r.pyStrip, "reactivo", none⟩] else []))

/-- The `seen`/`final` de-duplication loop (first occurrence wins). -/
def dedup_items : List VialItem → List String → List VialItem
  | [], _ => []
  | it :: rest, seen =>
    if it.id ∈ seen then dedup_items rest seen
    else it :: dedup_items rest (it.id :: seen)

def construir_ids_viales_from_state (state : RunState) : List VialItem :=
  dedup_items (construir_items_raw state) []

/-! ## Color assignment (`assign_colors_for_ids_for_state`) -/

/-- The `for i in range(len(lotes)): if i not in lote_map or forbidden:
lote_map[i] = allocate_lote_color(i)` loop (it appears verbatim both in
`build_etiquetas_from_state` and in `assign_colors_for_ids_for_state`). -/
def ensure_lote_map (count : Nat) (m : List (Nat × String)) : List (Nat × String) :=
  (List.range count).foldl (fun m i =>
    match pyDictGet m i with
    | none => pyDictSet m i (allocate_lote_color (i : Int))
    | some c =>
      if c.pyLower ∈ FORBIDDEN_COLORS then pyDictSet m i (allocate_lote_color (i : Int))
      else m) m

/-- The per-item color of the `for it in items` loop of
`assign_colors_for_ids_for_state`; `none` = the (unreachable for built
items) fall-through where no type branch matches and nothing is
written. -/
def assign_color_for (it : VialItem) (lote_map : List (Nat × String)) : Option String :=
  if it.type = "blank" then some BLANCO_COLOR
  else if it.type = "std" then
    if it.id.pyEndsWith "/A" || it.id = "STD A" then some STD_A_COLOR
    else if it.id.pyEndsWith "/B" || it.id = "STD B" then some STD_B_COLOR
    else some STD_A_COLOR
  else if it.type = "placebo" then some PLACEBO_COLOR
  else if it.type = "reactivo" then some REACTIVO_COLOR
  else if it.type = "sample" then
    -- lot_index is always present on sample items built by the Identity Builder
    let li := it.lot_index.getD 0
    some ((pyDictGet lote_map li).getD (allocate_lote_color (li : Int)))
  else none

/-- `assign_colors_for_ids_for_state(items, state)`: takes and returns the
`id_color_map` / `lote_color_map` entries of the state dict it mutates. -/
def assign_colors_for_ids (items : List VialItem) (id_map : List (String × String))
    (lote_map : List (Nat × String)) (num_lotes : Nat) :
    List (String × String) × List (Nat × String) :=
  let lote_map := ensure_lote_map num_lotes lote_map
  let id_map := items.foldl (fun m it =>
    match assign_color_for it lote_map with
    | some c => pyDictSet m it.id c
    | none => m) id_map
  (id_map, lote_map)

/-! ## Label Composer (`build_etiquetas_from_state`), section by section -/

/-- Step 1: the standards header. -/
def seccion_std_header (state : RunState) : List Etiqueta :=
  if state.dup_patron then
    [("STD_A", "STD A " ++ _format_with_unit (some state.peso_patron) "g" ++ "/" ++
        _format_with_unit (some state.vol_patron) "ml", STD_A_COLOR),
     ("STD_B", "STD B " ++ _format_with_unit (some state.peso_patron) "g" ++ "/" ++
        _format_with_unit (some state.vol_patron) "ml", STD_B_COLOR)]
  else
    [("STD_A", "STD " ++ _format_with_unit (some state.peso_patron) "g" ++ "/" ++
        _format_with_unit (some state.vol_patron) "ml", STD_A_COLOR)]

/-- The `std_chains` accumulation loop (non-manual entries with both
volumes; each chain extends the previous one, arrow-joined). -/
def std_chains_loop : List String → List Dilucion → List String
  | acc, [] => acc
  | acc, d :: ds =>
    let v1 := d.v_pip.pyStrip
    let v2 := d.v_final.pyStrip
    let id_override := d.id_text.pyStrip
    if id_override ≠ "" then std_chains_loop acc ds
    else if v1 = "" ∨ v2 = "" then std_chains_loop acc ds
    else
      let prev := (acc.getLast?).getD ""
      let chain := (if prev ≠ "" then prev ++ "→" else "") ++ v1 ++ ":" ++ v2
      std_chains_loop (acc ++ [chain]) ds

def std_chains_from (ds : List Dilucion) : List String := std_chains_loop [] ds

/-- The `manual_ids` list comprehension of the composer (NOT
de-duplicated, unlike the Identity Builder's). -/
def manual_ids_of (ds : List Dilucion) : List String :=
  (ds.map (fun d => d.id_text.pyStrip)).filter (fun s => s ≠ "")

/-- Step 2a: manual-labeled standard dilution labels. -/
def seccion_std_manual (state : RunState) : List Etiqueta :=
  (manual_ids_of state.diluciones_std).flatMap (fun idv =>
    if state.dup_patron then
      [("STD_A", idv ++ "/A", STD_A_COLOR), ("STD_B", idv ++ "/B", STD_B_COLOR)]
    else [("STD_A", idv, STD_A_COLOR)])

/-- Step 2b: chain labels, guarded by `any(entry lacks a manual label)`. -/
def seccion_std_chains (state : RunState) : List Etiqueta :=
  if state.diluciones_std.any (fun d => d.id_text.pyStrip = "") then
    (std_chains_from state.diluciones_std).flatMap (fun chain =>
      if state.dup_patron then
        [("STD_A", "STD " ++ chain ++ "/A", STD_A_COLOR),
         ("STD_B", "STD " ++ chain ++ "/B", STD_B_COLOR)]
      else [("STD_A", "STD " ++ chain, STD_A_COLOR)])
  else []

/-- `state["lote_color_map"].get(li) or allocate_lote_color(li)` (an
empty-string color is falsy in Python). -/
def lote_color_or_alloc (m : List (Nat × String)) (li : Nat) : String :=
  match pyDictGet m li with
  | some c => if c = "" then allocate_lote_color (li : Int) else c
  | none => allocate_lote_color (li : Int)

/-- Step 3: base per-lot sample labels; returns the labels and the
`lote_color_map` after the loop's writes. -/
def seccion_muestras_base (state : RunState) : List Etiqueta × List (Nat × String) :=
  state.lotes.enum.foldl (fun acc p =>
    let li := p.1
    let name := lote_display p.2 li
    let peso_label := _format_with_unit (some state.muestra_peso) "g"
    let vol_label := _format_with_unit (some state.muestra_vol) "ml"
    let suffix_parts := (if peso_label ≠ "" then [peso_label] else []) ++
                        (if vol_label ≠ "" then [vol_label] else [])
    let suffix := if suffix_parts.isEmpty then "" else pyJoin "/" suffix_parts
    let color := lote_color_or_alloc acc.2 li
    let lmap := pyDictSet acc.2 li color
    let labels :=
      if state.uniformidad then
        (List.range (uniform_count state).toNat).map (fun k =>
          ("MUESTRA", name ++ "/" ++ toString (k + 1) ++
            (if suffix ≠ "" then " " ++ suffix else ""), color))
      else if state.dup_muestra then
        [("MUESTRA", name ++ "/A" ++ (if suffix ≠ "" then " " ++ suffix else ""), color),
         ("MUESTRA", name ++ "/B" ++ (if suffix ≠ "" then " " ++ suffix else ""), color)]
      else [("MUESTRA", name ++ (if suffix ≠ "" then " " ++ suffix else ""), color)]
    (acc.1 ++ labels, lmap)) ([], state.lote_color_map)

/-- Resolution of one sample-dilution entry at one lot: the per-lot
override if non-empty, else `pip:final` if both volumes are present,
else unresolved. -/
def resolve_dm (d : DilucionMuestra) (li : Nat) : Option String :=
  let custom := (d.per_lote_ids.getD li "").pyStrip
  if custom ≠ "" then some custom
  else
    let v1 := d.v_pip.pyStrip
    let v2 := d.v_final.pyStrip
    if v1 ≠ "" ∧ v2 ≠ "" then some (v1 ++ ":" ++ v2) else none

/-- Emission of one accumulated sample-dilution chain for one lot
(uniformity / duplicate / plain variants, chain after the name). -/
def dm_emit (state : RunState) (name color chain : String) : List Etiqueta :=
  if state.uniformidad then
    (List.range (uniform_count state).toNat).map (fun k =>
      ("MUESTRA", name ++ "/" ++ toString (k + 1) ++ " " ++ chain, color))
  else if state.dup_muestra then
    [("MUESTRA", name ++ "/A " ++ chain, color),
     ("MUESTRA", name ++ "/B " ++ chain, color)]
  else [("MUESTRA", name ++ " " ++ chain, color)]

/-- The inner `for m in range(1, num_dils+1)` loop for one lot: extend
`accumulated`, skip emission while any entry so far is unresolved
(`continue`), else emit the `"-->"`-joined chain. -/
def dm_loop (state : RunState) (li : Nat) (name color : String) :
    List DilucionMuestra → List (Option String) → List Etiqueta
  | [], _ => []
  | d :: ds, accumulated =>
    let accumulated := accumulated ++ [resolve_dm d li]
    (if accumulated.any (fun x => x.isNone) then []
     else dm_emit state name color
       (pyJoin "-->" (accumulated.map (fun x => x.getD "")))) ++
    dm_loop state li name color ds accumulated

/-- Step 4: accumulative sample dilutions (runs only when
`diluciones_muestra` is non-empty). -/
def seccion_muestras_dil (state : RunState) : List Etiqueta :=
  if state.diluciones_muestra.isEmpty then []
  else
    state.lotes.enum.flatMap (fun p =>
      let li := p.1
      let name := lote_display p.2 li
      let color := lote_color_or_alloc state.lote_color_map li
      dm_loop state li name color state.diluciones_muestra [])

/-- Step 5: placebo header and placebo dilutions (raw `pip:final`, no
unit formatting on the dilution volumes). -/
def seccion_placebo (state : RunState) : List Etiqueta :=
  if state.incluir_placebo then
    let p1 := state.placebo_peso.pyStrip
    let p2 := state.placebo_vol.pyStrip
    let p1_fmt := if p1 ≠ "" then _format_with_unit (some p1) "g" else ""
    let p2_fmt := if p2 ≠ "" then _format_with_unit (some p2) "ml" else ""
    (if p1_fmt ≠ "" ∨ p2_fmt ≠ "" then
       [("PLACEBO", "Placebo " ++ p1_fmt ++ "/" ++ p2_fmt, PLACEBO_COLOR)]
     else [("PLACEBO", "Placebo", PLACEBO_COLOR)])
    ++ state.diluciones_placebo.flatMap (fun d =>
        let v1 := d.v_pip.pyStrip
        let v2 := d.v_final.pyStrip
        let id_override := d.id_text.pyStrip
        if id_override ≠ "" then [("PLACEBO", "Placebo " ++ id_override, PLACEBO_COLOR)]
        else if v1 ≠ "" ∨ v2 ≠ "" then
          [("PLACEBO", "Placebo " ++ v1 ++ ":" ++ v2, PLACEBO_COLOR)]
        else [])
  else []

/-- Step 6: reagent labels. -/
def seccion_reactivos (state : RunState) : List Etiqueta :=
  state.reactivos.flatMap (fun r =>
    if r.pyStrip ≠ "" then [("REACTIVO", r.pyStrip, REACTIVO_COLOR)] else [])

/-- The multiplier reconciliation loop: keep `int(...)`-convertible values
of still-present ids, default reagents to 0 and everything else to 1,
drop stale keys (the fresh dict is built only from current ids). -/
def sync_multipliers (items : List VialItem) (old : List (String × PyVal)) :
    List (String × PyVal) :=
  items.foldl (fun nm it =>
    let dflt : Int := if it.type = "reactivo" then 0 else 1
    match pyDictGet old it.id with
    | some v =>
      match pyIntOfVal v with
      | some n => pyDictSet nm it.id (PyVal.int n)
      | none => pyDictSet nm it.id (PyVal.int dflt)
    | none => pyDictSet nm it.id (PyVal.int dflt)) []

/-- Step 7: vial expansion.  Returns the labels and the state with the
updated `id_color_map`, `lote_color_map` and reconciled
`viales_multiplicadores`. -/
def seccion_viales (state : RunState) : List Etiqueta × RunState :=
  if state.incluir_viales then
    let items := construir_ids_viales_from_state state
    let maps := assign_colors_for_ids items state.id_color_map state.lote_color_map
      state.lotes.length
    let new_mult := sync_multipliers items state.viales_multiplicadores
    let labels := new_mult.flatMap (fun p =>
      let m := (pyIntOfVal p.2).getD 0
      List.replicate (max 0 m).toNat
        ("VIAL", p.1, (pyDictGet maps.1 p.1).getD "#cccccc"))
    (labels, { state with id_color_map := maps.1, lote_color_map := maps.2,
                          viales_multiplicadores := new_mult })
  else ([], state)

/-- `build_etiquetas_from_state`, with the composer's final internal state
exposed as the second component (the Python function computes it on its
deep copy and returns only the label list; the spec's statements about
the "returned/updated" maps are about this internal state).

The deep copy is a JSON round-trip: it stringifies the integer keys of
`lote_color_map`, so the composer's integer-keyed lookups into the copied
map never hit an incoming entry — modelled by starting from an empty
integer-keyed map. -/
def build_etiquetas_run (state_in : RunState) : List Etiqueta × RunState :=
  let state0 : RunState := { state_in with lote_color_map := [] }
  let e1 := seccion_std_header state0
  let e2 := seccion_std_manual state0
  let e3 := seccion_std_chains state0
  let lmap1 := ensure_lote_map state0.lotes.length state0.lote_color_map
  let state1 : RunState := { state0 with lote_color_map := lmap1 }
  let base := seccion_muestras_base state1
  let state2 : RunState := { state1 with lote_color_map := base.2 }
  let e5 := seccion_muestras_dil state2
  let e6 := seccion_placebo state2
  let e7 := seccion_reactivos state2
  let viales := seccion_viales state2
  (e1 ++ e2 ++ e3 ++ base.1 ++ e5 ++ e6 ++ e7 ++ viales.1, viales.2)

/-- The label list actually returned by the Python function. -/
def build_etiquetas_from_state (state_in : RunState) : List Etiqueta :=
  (build_etiquetas_run state_in).1

/-! ## Page layout / continuation (`generar_pdf_bytes_and_next_start`) -/

/-- The placement loop: page-relative `(col, row)` per label, final
cursor, and `total_generated`. -/
def pdf_place_loop : Nat → Nat → List Etiqueta → List (Nat × Nat × Etiqueta) × Nat × Nat
  | etiqueta_idx, total, [] => ([], etiqueta_idx, total)
  | etiqueta_idx, total, e :: rest =>
    let idx := if etiqueta_idx ≥ TOTAL_ETIQUETAS_PAGINA then 0 else etiqueta_idx
    let col := idx % COLS
    let row := idx / COLS
    let p := pdf_place_loop (idx + 1) (total + 1) rest
    ((col, row, e) :: p.1, p.2)

/-- The `next_start` computation at the end of
`generar_pdf_bytes_and_next_start` (with `total_generated` produced by the
placement loop started at `max(start-1, 0)`). -/
def generar_pdf_next_start (start_label : Option String) (etiquetas : List Etiqueta) : Int :=
  let idx0 : Int := safe_int_from_str start_label 1 - 1
  let idx0 : Int := if idx0 < 0 then 0 else idx0
  let total_generated := (pdf_place_loop idx0.toNat 0 etiquetas).2.2
  if total_generated = 0 then safe_int_from_str start_label 1
  else
    let last_pos_on_page :=
      ((safe_int_from_str start_label 1 - 1) + (total_generated : Int) - 1) %
        (TOTAL_ETIQUETAS_PAGINA : Int) + 1
    let next_pos := last_pos_on_page + 1
    if next_pos > (TOTAL_ETIQUETAS_PAGINA : Int) then 1 else next_pos

/-! ## Specification-side formulations

These definitions follow the spec's wording; the claim theorems relate
them to the source-shaped definitions above. -/

/-- The entries of `standardDilutions` that qualify for the chain: no
manual label and both volumes non-empty. -/
def qualifying_std (ds : List Dilucion) : List Dilucion :=
  ds.filter (fun d => d.id_text.pyStrip = "" ∧ d.v_pip.pyStrip ≠ "" ∧ d.v_final.pyStrip ≠ "")

/-- Spec §4.3 step 2: the running chain over qualifying entries — first
entry `"pip:final"`, each subsequent entry `"previous→pip:final"`. -/
def chain_texts_spec : String → List Dilucion → List String
  | _, [] => []
  | prev, d :: ds =>
    let t := d.v_pip.pyStrip ++ ":" ++ d.v_final.pyStrip
    let c := if prev = "" then t else prev ++ "→" ++ t
    c :: chain_texts_spec c ds

/-- Spec §4.3 step 4: a label is emitted at depth `m` (0-based here) iff
every depth `1..m+1` resolves; its chain is the `"-->"`-join of the
resolved texts. -/
def dm_spec_labels (state : RunState) (li : Nat) (name color : String) : List Etiqueta :=
  (List.range state.diluciones_muestra.length).flatMap (fun m =>
    let texts := (state.diluciones_muestra.take (m + 1)).map (fun d => resolve_dm d li)
    if texts.all (fun x => x.isSome) then
      dm_emit state name color
        (pyJoin "-->" (texts.map (fun x => x.getD "")))
    else [])

/-- Spec §4.2: keep only the first occurrence of each `id`. -/
def first_occurrences_spec : List VialItem → List VialItem
  | [] => []
  | it :: rest =>
    it :: first_occurrences_spec (rest.filter (fun x => x.id ≠ it.id))
termination_by l => l.length
decreasing_by
  simp only [List.length_cons]
  exact Nat.lt_succ_of_le (List.length_filter_le _ _)

/-- Spec §4.3 step 7 / §3: the reconciled multiplier map, entry by entry —
an integer-convertible existing value is kept, anything else defaults to
0 for reagent identities and 1 otherwise. -/
def sync_multipliers_spec (items : List VialItem) (old : List (String × PyVal)) :
    List (String × PyVal) :=
  items.map (fun it =>
    (it.id, PyVal.int
      (match pyDictGet old it.id with
       | some v => (pyIntOfVal v).getD (if it.type = "reactivo" then 0 else 1)
       | none => if it.type = "reactivo" then 0 else 1)))

/-- Number of VIAL labels carrying a given identity id. -/
def vial_count (labels : List Etiqueta) (vid : String) : Nat :=
  (labels.filter (fun e => e.1 = "VIAL" ∧ e.2.1 = vid)).length

/-! ## Helper lemmas -/

theorem any_isNone_eq_not_all_isSome (l : List (Option String)) :
    l.any (fun x => x.isNone) = !l.all (fun x => x.isSome) := by
  induction l with
  | nil => rfl
  | cons x xs ih => cases x <;> simp [ih]

theorem pyDictGet_set_self {κ α : Type} [DecidableEq κ] (m : List (κ × α)) (k : κ) (v : α) :
    pyDictGet (pyDictSet m k v) k = some v := by
  induction m with
  | nil => simp [pyDictGet, pyDictSet]
  | cons p ps ih =>
    by_cases h : p.1 = k
    · simp [pyDictGet, pyDictSet, h]
    · simp [pyDictGet, pyDictSet, h, ih]

theorem pyDictGet_set_ne {κ α : Type} [DecidableEq κ] (m : List (κ × α)) (k k' : κ) (v : α)
    (h : k' ≠ k) : pyDictGet (pyDictSet m k v) k' = pyDictGet m k' := by
  induction m with
  | nil => simp [pyDictGet, pyDictSet, Ne.symm h]
  | cons p ps ih =>
    by_cases hp : p.1 = k
    · have hp' : ¬ p.1 = k' := by rw [hp]; exact Ne.symm h
      simp [pyDictGet, pyDictSet, hp, hp', Ne.symm h]
    · simp [pyDictGet, pyDictSet, hp, ih]

theorem pyDictSet_not_mem {κ α : Type} [DecidableEq κ] (m : List (κ × α)) (k : κ) (v : α)
    (h : k ∉ m.map (fun p => p.1)) : pyDictSet m k v = m ++ [(k, v)] := by
  induction m with
  | nil => rfl
  | cons p ps ih =>
    simp only [List.map_cons, List.mem_cons, not_or] at h
    simp [pyDictSet, Ne.symm h.1, ih h.2]

/-- The de-duplication loop never keeps an id from `seen`, and its output
ids are distinct. -/
theorem dedup_items_nodup_aux (l : List VialItem) :
    ∀ seen, ((dedup_items l seen).map (fun x => x.id)).Nodup ∧
      ∀ x ∈ dedup_items l seen, x.id ∉ seen := by
  induction l with
  | nil => intro seen; simp [dedup_items]
  | cons it rest ih =>
    intro seen
    by_cases h : it.id ∈ seen
    · simpa [dedup_items, h] using ih seen
    · have ihc := ih (it.id :: seen)
      refine ⟨?_, ?_⟩
      · simp only [dedup_items, h, if_false, List.map_cons, List.nodup_cons]
        refine ⟨?_, ihc.1⟩
        intro hmem
        rcases List.mem_map.mp hmem with ⟨x, hx, hxid⟩
        exact (ihc.2 x hx) (hxid ▸ List.mem_cons_self _ _)
      · intro x hx
        simp only [dedup_items, h, if_false, List.mem_cons] at hx
        rcases hx with rfl | hx
        · exact h
        · intro hs
          exact (ihc.2 x hx) (List.mem_cons_of_mem _ hs)

theorem construir_ids_id_nodup (state : RunState) :
    ((construir_ids_viales_from_state state).map (fun x => x.id)).Nodup :=
  (dedup_items_nodup_aux (construir_items_raw state) []).1

/-- The `seen`-accumulator de-duplication loop computes the spec's
first-occurrence filter. -/
theorem dedup_items_eq_first_occurrences (l : List VialItem) :
    ∀ seen, dedup_items l seen =
      first_occurrences_spec (l.filter (fun x => x.id ∉ seen)) := by
  induction l with
  | nil => intro seen; simp [dedup_items, first_occurrences_spec]
  | cons it rest ih =>
    intro seen
    by_cases h : it.id ∈ seen
    · simp [dedup_items, h, ih seen]
    · have hfil : (rest.filter (fun x => decide (x.id ∉ seen))).filter
          (fun x => decide (x.id ≠ it.id)) =
          rest.filter (fun x => decide (x.id ∉ it.id :: seen)) := by
        rw [List.filter_filter]
        apply List.filter_congr
        intro x _
        by_cases h1 : x.id = it.id <;> by_cases h2 : x.id ∈ seen <;> simp [h1, h2]
      have hstep : List.filter (fun x => decide (x.id ∉ seen)) (it :: rest) =
          it :: List.filter (fun x => decide (x.id ∉ seen)) rest := by
        simp [List.filter_cons, h]
      have hl : dedup_items (it :: rest) seen = it :: dedup_items rest (it.id :: seen) := by
        simp [dedup_items, h]
      rw [hl, hstep]
      simp only [first_occurrences_spec]
      congr 1
      rw [ih (it.id :: seen), hfil]

theorem first_occurrences_construir (state : RunState) :
    construir_ids_viales_from_state state =
      first_occurrences_spec (construir_items_raw state) := by
  have h := dedup_items_eq_first_occurrences (construir_items_raw state) []
  simpa [construir_ids_viales_from_state] using h

/-- `total_generated` counts exactly the labels handed to the placement
loop. -/
theorem pdf_place_loop_total (es : List Etiqueta) :
    ∀ i t, (pdf_place_loop i t es).2.2 = t + es.length := by
  induction es with
  | nil => intro i t; simp [pdf_place_loop]
  | cons e rest ih =>
    intro i t
    simp only [pdf_place_loop, ih, List.length_cons]
    omega

/-- The source's `std_chains` loop (last-element peek) computes the
spec's running chain over the qualifying entries. -/
theorem std_chains_loop_eq_spec (ds : List Dilucion) :
    ∀ acc, std_chains_loop acc ds =
      acc ++ chain_texts_spec ((acc.getLast?).getD "") (qualifying_std ds) := by
  induction ds with
  | nil => intro acc; simp [std_chains_loop, chain_texts_spec, qualifying_std]
  | cons d ds ih =>
    intro acc
    by_cases h1 : d.id_text.pyStrip ≠ ""
    · have hq : qualifying_std (d :: ds) = qualifying_std ds := by
        simp [qualifying_std, List.filter_cons, h1]
      rw [hq, show std_chains_loop acc (d :: ds) = std_chains_loop acc ds by
        simp [std_chains_loop, h1]]
      exact ih acc
    · push_neg at h1
      by_cases h2 : d.v_pip.pyStrip = "" ∨ d.v_final.pyStrip = ""
      · have hq : qualifying_std (d :: ds) = qualifying_std ds := by
          rcases h2 with h2 | h2 <;> simp [qualifying_std, List.filter_cons, h1, h2]
        rw [hq, show std_chains_loop acc (d :: ds) = std_chains_loop acc ds by
          simp [std_chains_loop, h1, h2]]
        exact ih acc
      · push_neg at h2
        have hq : qualifying_std (d :: ds) = d :: qualifying_std ds := by
          simp [qualifying_std, List.filter_cons, h1, h2.1, h2.2]
        have hl : std_chains_loop acc (d :: ds) =
            std_chains_loop (acc ++ [(if (acc.getLast?).getD "" ≠ "" then
              (acc.getLast?).getD "" ++ "→" else "") ++ d.v_pip.pyStrip ++ ":" ++
              d.v_final.pyStrip]) ds := by
          simp [std_chains_loop, h1, h2.1, h2.2]
        rw [hq, hl, ih]
        simp only [chain_texts_spec, List.getLast?_concat, Option.getD_some]
        by_cases hprev : (acc.getLast?).getD "" = "" <;>
          simp [hprev, String.append_assoc, List.append_assoc]

/-- The source's accumulate-and-maybe-emit loop, against the spec shape:
one candidate emission per depth, kept iff every resolution up to that
depth succeeded. -/
theorem dm_loop_eq_spec (state : RunState) (li : Nat) (name color : String)
    (ds : List DilucionMuestra) :
    ∀ acc, dm_loop state li name color ds acc =
      (List.range ds.length).flatMap (fun m =>
        let texts := acc ++ (ds.take (m + 1)).map (fun d => resolve_dm d li)
        if texts.all (fun x => x.isSome) then
          dm_emit state name color
            (pyJoin "-->" (texts.map (fun x => x.getD "")))
        else []) := by
  induction ds with
  | nil => intro acc; simp [dm_loop]
  | cons d ds ih =>
    intro acc
    simp only [dm_loop, List.length_cons, List.range_succ_eq_map, List.flatMap_cons,
      List.flatMap_map]
    congr 1
    · simp only [List.take_succ_cons, List.take_zero, List.map_cons, List.map_nil,
        any_isNone_eq_not_all_isSome]
      by_cases hall : (acc ++ [resolve_dm d li]).all (fun x => x.isSome) <;>
        simp [hall]
    · rw [ih (acc ++ [resolve_dm d li])]
      apply List.flatMap_congr
      intro m _
      simp only [Function.comp, List.take_succ_cons, List.map_cons]
      rw [show acc ++ resolve_dm d li :: (ds.take (m + 1)).map (fun d => resolve_dm d li) =
        (acc ++ [resolve_dm d li]) ++ (ds.take (m + 1)).map (fun d => resolve_dm d li) by
          simp]

/-- Looking up a key not set by the color-assignment fold. -/
theorem assign_fold_get_not_mem (items : List VialItem) (lote_map : List (Nat × String))
    (k : String) :
    ∀ m, k ∉ items.map (fun x => x.id) →
      pyDictGet (items.foldl (fun m it =>
        match assign_color_for it lote_map with
        | some c => pyDictSet m it.id c
        | none => m) m) k = pyDictGet m k := by
  induction items with
  | nil => intro m _; rfl
  | cons it rest ih =>
    intro m hk
    simp only [List.map_cons, List.mem_cons, not_or] at hk
    simp only [List.foldl_cons]
    rw [ih _ hk.2]
    cases hc : assign_color_for it lote_map with
    | none => rfl
    | some c => exact pyDictGet_set_ne m it.id k c hk.1

/-- Every item of a duplicate-free list ends up mapped to its assigned
color after the color-assignment fold. -/
theorem assign_fold_get_mem (items : List VialItem) (lote_map : List (Nat × String)) :
    ∀ m, ((items.map (fun x => x.id)).Nodup) →
      ∀ it ∈ items, ∀ c, assign_color_for it lote_map = some c →
        pyDictGet (items.foldl (fun m it =>
          match assign_color_for it lote_map with
          | some c => pyDictSet m it.id c
          | none => m) m) it.id = some c := by
  induction items with
  | nil => intro m _ it hit; exact absurd hit (List.not_mem_nil it)
  | cons hd rest ih =>
    intro m hnd it hit c hc
    simp only [List.map_cons, List.nodup_cons] at hnd
    rcases List.mem_cons.mp hit with rfl | hit'
    · simp only [List.foldl_cons, hc]
      rw [assign_fold_get_not_mem rest lote_map it.id _ hnd.1]
      exact pyDictGet_set_self m it.id c
    · simp only [List.foldl_cons]
      cases hch : assign_color_for hd lote_map with
      | none => exact ih m hnd.2 it hit' c hc
      | some ch => exact ih (pyDictSet m hd.id ch) hnd.2 it hit' c hc

/-- The multiplier-reconciliation fold builds exactly the spec's map when
the ids are duplicate-free (append form, generalised accumulator). -/
theorem sync_fold_eq_spec (old : List (String × PyVal)) (items : List VialItem) :
    ∀ nm, ((items.map (fun x => x.id)).Nodup) →
      (∀ it ∈ items, it.id ∉ nm.map (fun p => p.1)) →
      items.foldl (fun nm it =>
        let dflt : Int := if it.type = "reactivo" then 0 else 1
        match pyDictGet old it.id with
        | some v =>
          match pyIntOfVal v with
          | some n => pyDictSet nm it.id (PyVal.int n)
          | none => pyDictSet nm it.id (PyVal.int dflt)
        | none => pyDictSet nm it.id (PyVal.int dflt)) nm =
      nm ++ sync_multipliers_spec items old := by
  induction items with
  | nil => intro nm _ _; simp [sync_multipliers_spec]
  | cons it rest ih =>
    intro nm hnd hdisj
    simp only [List.map_cons, List.nodup_cons] at hnd
    have hit : it.id ∉ nm.map (fun p => p.1) := hdisj it (List.mem_cons_self it rest)
    have hval : (let dflt : Int := if it.type = "reactivo" then 0 else 1
        match pyDictGet old it.id with
        | some v =>
          match pyIntOfVal v with
          | some n => pyDictSet nm it.id (PyVal.int n)
          | none => pyDictSet nm it.id (PyVal.int dflt)
        | none => pyDictSet nm it.id (PyVal.int dflt)) =
        nm ++ [(it.id, PyVal.int
          (match pyDictGet old it.id with
           | some v => (pyIntOfVal v).getD (if it.type = "reactivo" then 0 else 1)
           | none => if it.type = "reactivo" then 0 else 1))] := by
      cases hg : pyDictGet old it.id with
      | none => exact pyDictSet_not_mem nm it.id _ hit
      | some v =>
        cases hv : pyIntOfVal v with
        | none => simpa [hv] using pyDictSet_not_mem nm it.id _ hit
        | some n => simpa [hv] using pyDictSet_not_mem nm it.id _ hit
    simp only [List.foldl_cons]
    rw [hval, ih]
    · simp [sync_multipliers_spec]
    · exact hnd.2
    · intro x hx
      simp only [List.map_append, List.mem_append]
      rintro (hin | hin)
      · exact hdisj x (List.mem_cons_of_mem it hx) hin
      · simp only [List.map_cons, List.map_nil, List.mem_singleton] at hin
        exact hnd.1 (hin ▸ (List.mem_map.mpr ⟨x, hx, rfl⟩))

/-- `sync_multipliers` agrees with the spec map on duplicate-free ids. -/
theorem sync_multipliers_eq_spec (items : List VialItem) (old : List (String × PyVal))
    (hnd : (items.map (fun x => x.id)).Nodup) :
    sync_multipliers items old = sync_multipliers_spec items old := by
  have h := sync_fold_eq_spec old items [] hnd (by intro it _ hin; simp at hin)
  simpa [sync_multipliers] using h

/-! ## Concrete test configurations (for the claims' "in particular"
scenarios and counterexamples) -/

/-- A minimal configuration: single standard, nothing else. -/
def baseState : RunState := {
  dup_patron := false, peso_patron := "", vol_patron := "",
  dup_muestra := false, uniformidad := false, num_uniform_samples := "2",
  muestra_peso := "", muestra_vol := "", texto_blanco := "", texto_wash := "",
  lotes := [], diluciones_std := [], diluciones_muestra := [],
  incluir_placebo := false, placebo_peso := "", placebo_vol := "",
  diluciones_placebo := [], reactivos := [], incluir_viales := false,
  viales_multiplicadores := [], id_color_map := [], lote_color_map := [] }

/-- `weight="10"`, `finalVolume="100"`, not duplicated. -/
def c1State : RunState := { baseState with peso_patron := "10", vol_patron := "100" }

/-- One lot `"A"`, two sample dilutions `1:10` and `2:20`, no
duplication, no uniformity. -/
def c2State : RunState := { baseState with
  lotes := [⟨"A"⟩],
  diluciones_muestra := [⟨"1", "10", [""]⟩, ⟨"2", "20", [""]⟩] }

/-- Vials included, a reagent `"NaOH"` and one sample lot, with no prior
multiplier entries. -/
def c4State : RunState := { baseState with
  incluir_viales := true, reactivos := ["NaOH"], lotes := [⟨"L1"⟩] }

/-- Thirteen lots (one more than the palette size). -/
def c5State : RunState := { baseState with lotes := List.replicate 13 ⟨""⟩ }

/-- Vials included and a stored multiplier value `"2.5"` for the `"STD"`
identity. -/
def c8State : RunState := { baseState with
  incluir_viales := true, viales_multiplicadores := [("STD", PyVal.str "2.5")] }

/-- Three labels, for the continuation-arithmetic scenario. -/
def c3Labels : List Etiqueta := List.replicate 3 ("MUESTRA", "x", "#2ca02c")

/-! ## Claim theorems -/

/-- **C1.** `composeLabels` emits the standard header first: with
`standard.duplicated = false` the first label is
`(STD_A, "STD {weightPart}/{volumePart}", standardA color)`, where each
part is formatted by the unit rule (empty stays empty, a value with a
letter passes through, otherwise `g`/`ml` is appended to the stripped
value) and the `/` separator is always present.  In particular
`weight="10"`, `finalVolume="100"` gives
`(STD_A, "STD 10g/100ml", standardA color)`. -/
theorem C1_std_header_first (s : RunState) (v u : String) :
    (build_etiquetas_from_state { s with dup_patron := false }).head? =
      some ("STD_A", "STD " ++ _format_with_unit (some s.peso_patron) "g" ++ "/" ++
        _format_with_unit (some s.vol_patron) "ml", STD_A_COLOR) ∧
    _format_with_unit (some v) u =
      (if v.pyStrip = "" then ""
       else if containsLetter v.pyStrip then v.pyStrip
       else v.pyStrip ++ u) ∧
    (build_etiquetas_from_state c1State).head? =
      some ("STD_A", "STD 10g/100ml", "#1f77b4") := by
  refine ⟨?_, rfl, by decide⟩
  simp [build_etiquetas_from_state, build_etiquetas_run, seccion_std_header]

/-- **C2.** The per-lot accumulative dilution loop emits a label at depth
`m` iff every depth `1..m` resolves (override text if non-empty, else
`pip:final` when both volumes are non-empty, else unresolved), with the
resolved texts joined by `"-->"`; and the dilution section applies this
per lot, appending the chain after the lot display name under the
section's duplication rules.  In particular, for one lot `"A"` with
dilutions `1:10` and `2:20` the labels are `"A 1:10"` and
`"A 1:10-->2:20"`. -/
theorem C2_sample_dilution_chains (s : RunState) (li : Nat) (name color : String) :
    dm_loop s li name color s.diluciones_muestra [] = dm_spec_labels s li name color ∧
    seccion_muestras_dil s =
      (if s.diluciones_muestra.isEmpty then []
       else s.lotes.enum.flatMap (fun p =>
         dm_spec_labels s p.1 (lote_display p.2 p.1)
           (lote_color_or_alloc s.lote_color_map p.1))) ∧
    ("MUESTRA", "A 1:10", allocate_lote_color 0) ∈ build_etiquetas_from_state c2State ∧
    ("MUESTRA", "A 1:10-->2:20", allocate_lote_color 0) ∈
      build_etiquetas_from_state c2State := by
  have hmain : ∀ (li : Nat) (name color : String),
      dm_loop s li name color s.diluciones_muestra [] = dm_spec_labels s li name color := by
    intro li name color
    rw [dm_loop_eq_spec]
    simp [dm_spec_labels]
  refine ⟨hmain li name color, ?_, by decide, by decide⟩
  unfold seccion_muestras_dil
  by_cases h : s.diluciones_muestra.isEmpty
  · simp [h]
  · simp only [h, if_false]
    apply List.flatMap_congr
    intro p _
    exact hmain p.1 (lote_display p.2 p.1) (lote_color_or_alloc s.lote_color_map p.1)

/-- **C3.** For any start cell in 1..80 and any label list, the layout
step's next start cell is `((startCell - 1 + totalPlaced - 1) mod 80) + 1
+ 1` wrapped to 1 when it exceeds 80, with `totalPlaced` the number of
labels placed, and the start cell is returned unchanged when nothing is
placed. -/
theorem C3_next_start (s : String) (labels : List Etiqueta) (startCell : Int)
    (hs : safe_int_from_str (some s) 1 = startCell)
    (_h1 : 1 ≤ startCell) (_h2 : startCell ≤ 80) :
    generar_pdf_next_start (some s) labels =
      (if labels.length = 0 then startCell
       else if ((startCell - 1 + (labels.length : Int) - 1) % 80 + 1) + 1 > 80 then 1
       else ((startCell - 1 + (labels.length : Int) - 1) % 80 + 1) + 1) := by
  simp only [generar_pdf_next_start, pdf_place_loop_total, Nat.zero_add, hs,
    TOTAL_ETIQUETAS_PAGINA]
  norm_num

/-- Witness for C3: `startCell = 79` with three labels wraps to cell 2. -/
theorem C3_next_start_witness :
    generar_pdf_next_start (some "79") c3Labels = 2 := by
  have h := C3_next_start "79" c3Labels 79 (by decide) (by decide) (by decide)
  exact h.trans (by decide)

/-- With vials enabled, the composer's reconciled multiplier map is the
synchronisation fold over the current identity list. -/
theorem build_run_mult (s : RunState) (h : s.incluir_viales = true) :
    (build_etiquetas_run s).2.viales_multiplicadores =
      sync_multipliers (construir_ids_viales_from_state s) s.viales_multiplicadores := by
  simp only [build_etiquetas_run, seccion_viales, h, if_true]
  rfl

/-- **C4.** After a `composeLabels` call with `includeVials = true`, the
reconciled vial-multiplier map is indexed exactly by the Identity
Builder's id set (stale keys dropped), existing integer-convertible
values kept, and missing entries defaulted to 0 for reagent identities
and 1 otherwise.  In particular a reagent `"NaOH"` with no prior entry
defaults to 0 (zero VIAL labels) while a new sample identity defaults to
1 (one VIAL label). -/
theorem C4_multiplier_reconciliation (s : RunState) :
    (build_etiquetas_run { s with incluir_viales := true }).2.viales_multiplicadores =
      sync_multipliers_spec
        (construir_ids_viales_from_state { s with incluir_viales := true })
        s.viales_multiplicadores ∧
    (build_etiquetas_run { s with incluir_viales := true }).2.viales_multiplicadores.map
        (fun p => p.1) =
      (construir_ids_viales_from_state { s with incluir_viales := true }).map
        (fun x => x.id) ∧
    pyDictGet (build_etiquetas_run c4State).2.viales_multiplicadores "NaOH" =
      some (PyVal.int 0) ∧
    vial_count (build_etiquetas_from_state c4State) "NaOH" = 0 ∧
    pyDictGet (build_etiquetas_run c4State).2.viales_multiplicadores "L1" =
      some (PyVal.int 1) ∧
    vial_count (build_etiquetas_from_state c4State) "L1" = 1 := by
  have hmult := build_run_mult { s with incluir_viales := true } rfl
  have hspec := sync_multipliers_eq_spec
    (construir_ids_viales_from_state { s with incluir_viales := true })
    s.viales_multiplicadores
    (construir_ids_id_nodup { s with incluir_viales := true })
  refine ⟨hmult.trans hspec, ?_, by decide, by decide, by decide, by decide⟩
  rw [hmult.trans hspec]
  simp [sync_multipliers_spec, List.map_map, Function.comp]

/-- **C5 counterexample.** The lot color allocator is periodic with the
12-entry pool, so two distinct lot indices present in one configuration
(lots 0 and 12 of a 13-lot run) receive the same color — refuting
"for any two distinct lot indices present in a configuration, the
allocated lot colors differ". -/
theorem C5_counterexample :
    (0 : Nat) ≠ 12 ∧
    allocate_lote_color 0 = allocate_lote_color 12 ∧
    pyDictGet (build_etiquetas_run c5State).2.lote_color_map 0 =
      pyDictGet (build_etiquetas_run c5State).2.lote_color_map 12 ∧
    pyDictGet (build_etiquetas_run c5State).2.lote_color_map 0 = some "#2ca02c" := by
  decide

/-- **C5 (amended).** The lot color allocator is total, always returning
a palette hex string, never a reserved/forbidden color; and lot indices
that differ modulo the 12-entry pool receive distinct colors. -/
theorem C5_allocator (i j : Int) (hij : i % 12 ≠ j % 12) :
    allocate_lote_color i ∈ SAMPLE_PALETTE ∧
    allocate_lote_color i ∉ FORBIDDEN_COLORS ∧
    allocate_lote_color i ≠ allocate_lote_color j := by
  have hpool : SAMPLE_PALETTE.filter (fun c => decide (c.pyLower ∉ FORBIDDEN_COLORS)) =
      SAMPLE_PALETTE := by decide
  have halloc : ∀ k : Int, allocate_lote_color k =
      SAMPLE_PALETTE.getD (k % 12).toNat "#6b6bd3" := by
    intro k
    simp only [allocate_lote_color, hpool,
      show SAMPLE_PALETTE.isEmpty = false from by decide,
      show SAMPLE_PALETTE.length = 12 from by decide]
    norm_num
  have hi : (i % 12).toNat < 12 := by omega
  have hj : (j % 12).toNat < 12 := by omega
  have hne : (i % 12).toNat ≠ (j % 12).toNat := by omega
  have hmem : ∀ a : Nat, a < 12 → SAMPLE_PALETTE.getD a "#6b6bd3" ∈ SAMPLE_PALETTE := by
    decide
  have hforb : ∀ a : Nat, a < 12 → SAMPLE_PALETTE.getD a "#6b6bd3" ∉ FORBIDDEN_COLORS := by
    decide
  have hdist : ∀ a : Nat, a < 12 → ∀ b : Nat, b < 12 → a ≠ b →
      SAMPLE_PALETTE.getD a "#6b6bd3" ≠ SAMPLE_PALETTE.getD b "#6b6bd3" := by
    decide
  rw [halloc i, halloc j]
  exact ⟨hmem _ hi, hforb _ hi, hdist _ hi _ hj hne⟩

/-- Witness for C5: lot indices 0 and 1 get palette colors, outside the
forbidden set, and distinct from each other. -/
theorem C5_allocator_witness :
    allocate_lote_color 0 ∈ SAMPLE_PALETTE ∧
    allocate_lote_color 0 ∉ FORBIDDEN_COLORS ∧
    allocate_lote_color 0 ≠ allocate_lote_color 1 :=
  C5_allocator 0 1 (by decide)

/-- **C6.** The standard-dilution chain block: the chain is built only
over entries with no manual label and both volumes non-empty, the first
qualifying entry giving `"pip:final"` and each later one
`"previous→pip:final"`; the block runs iff some entry lacks a manual
label, emitting one label (or an `/A`,`/B` pair) per qualifying entry
with text `"STD {chain}"`; it emits nothing exactly when no entry lacks
a manual label or no entry qualifies. -/
theorem C6_std_chain_block (s : RunState) :
    std_chains_from s.diluciones_std =
      chain_texts_spec "" (qualifying_std s.diluciones_std) ∧
    seccion_std_chains s =
      (if s.diluciones_std.any (fun d => d.id_text.pyStrip = "") then
        (chain_texts_spec "" (qualifying_std s.diluciones_std)).flatMap (fun chain =>
          if s.dup_patron then
            [("STD_A", "STD " ++ chain ++ "/A", STD_A_COLOR),
             ("STD_B", "STD " ++ chain ++ "/B", STD_B_COLOR)]
          else [("STD_A", "STD " ++ chain, STD_A_COLOR)])
       else []) ∧
    (seccion_std_chains s = [] ↔
      (¬ s.diluciones_std.any (fun d => d.id_text.pyStrip = "") = true ∨
        qualifying_std s.diluciones_std = [])) := by
  have hchains : std_chains_from s.diluciones_std =
      chain_texts_spec "" (qualifying_std s.diluciones_std) := by
    have h := std_chains_loop_eq_spec s.diluciones_std []
    simpa [std_chains_from] using h
  have hspec_nil : ∀ (prev : String) (q : List Dilucion),
      (chain_texts_spec prev q = [] ↔ q = []) := by
    intro prev q
    cases q <;> simp [chain_texts_spec]
  have hemit : ∀ chain : String,
      (if s.dup_patron then
        [("STD_A", "STD " ++ chain ++ "/A", STD_A_COLOR),
         ("STD_B", "STD " ++ chain ++ "/B", STD_B_COLOR)]
       else [("STD_A", "STD " ++ chain, STD_A_COLOR)]) ≠ ([] : List Etiqueta) := by
    intro chain
    by_cases hd : s.dup_patron <;> simp [hd]
  refine ⟨hchains, ?_, ?_⟩
  · unfold seccion_std_chains
    rw [hchains]
  · unfold seccion_std_chains
    by_cases hg : s.diluciones_std.any (fun d => d.id_text.pyStrip = "")
    · rw [if_pos hg, hchains]
      constructor
      · intro hnil
        refine Or.inr ((hspec_nil "" _).mp ?_)
        rcases hq : chain_texts_spec "" (qualifying_std s.diluciones_std) with _ | ⟨c, cs⟩
        · rfl
        · rw [hq] at hnil
          exact absurd (List.flatMap_eq_nil_iff.mp hnil c (List.mem_cons_self c cs))
            (hemit c)
      · rintro (h | h)
        · exact absurd hg h
        · rw [(hspec_nil "" _).mpr h]
          rfl
    · simp [hg]

/-- **C7.** `buildVialIdentities` never returns two entries with the same
id, and the returned list keeps exactly the first occurrence of each id
in the fixed construction sequence (blank, wash, standards,
manual-labeled standard dilutions, per-lot samples, placebo,
reagents). -/
theorem C7_identity_dedup (s : RunState) :
    ((construir_ids_viales_from_state s).map (fun x => x.id)).Nodup ∧
    construir_ids_viales_from_state s =
      first_occurrences_spec (construir_items_raw s) :=
  ⟨construir_ids_id_nodup s, first_occurrences_construir s⟩

/-- **C8 counterexample.** Vial multipliers do not follow the shared
float-then-truncate rule: a stored multiplier `"2.5"` for the `"STD"`
identity is reconciled to the default 1 (plain `int("2.5")` raises),
while the claimed single rule, `safe_int_from_str`, yields 2. -/
theorem C8_counterexample :
    pyDictGet (build_etiquetas_run c8State).2.viales_multiplicadores "STD" =
      some (PyVal.int 1) ∧
    vial_count (build_etiquetas_from_state c8State) "STD" = 1 ∧
    safe_int_from_str (some "2.5") 1 = 2 ∧
    PyVal.int 1 ≠ PyVal.int 2 := by
  decide

set_option maxRecDepth 20000 in
/-- **C8 (amended).** `safe_int_from_str` is total and never raises:
missing input or blank (after stripping) gives the default; otherwise the
text is parsed as a float literal, rounded to the nearest double and
truncated toward zero, with the default on parse failure or float
overflow.  The rule governs the uniformity count (the emitted per-lot
label count is its clamped value); vial multipliers are instead converted
with plain `int(...)`, falling back to the per-type default (0 for
reagents, 1 otherwise).  The concrete conjuncts pin the behaviour on
representative inputs: fractional text truncates (`"2.5"` → 2),
whitespace is stripped, blank/malformed text (including a misplaced
underscore) and overflowing magnitudes (`"1e400"`) default, and a
53-bit-boundary integer is rounded by the double conversion. -/
theorem C8_numeric_parsing (s : RunState) (v : String) (d : Int)
    (name color chain : String) :
    safe_int_from_str none d = d ∧
    safe_int_from_str (some v) d =
      (if v.pyStrip = "" then d
       else match pyParseFloatParts v.pyStrip with
            | some p =>
              match pyFloatTruncate p.1 p.2 with
              | some n => n
              | none => d
            | none => d) ∧
    (dm_emit { s with uniformidad := true } name color chain).length =
      (max 1 (min (safe_int_from_str (some s.num_uniform_samples) 1) 100)).toNat ∧
    sync_multipliers (construir_ids_viales_from_state s) s.viales_multiplicadores =
      sync_multipliers_spec (construir_ids_viales_from_state s)
        s.viales_multiplicadores ∧
    safe_int_from_str (some "2.5") 7 = 2 ∧
    safe_int_from_str (some " 10 ") 7 = 10 ∧
    safe_int_from_str (some "") 7 = 7 ∧
    safe_int_from_str (some "abc") 7 = 7 ∧
    safe_int_from_str (some "_1") 7 = 7 ∧
    safe_int_from_str (some "1._5") 7 = 7 ∧
    safe_int_from_str (some "1e400") 7 = 7 ∧
    safe_int_from_str (some "9007199254740993") 7 = 9007199254740992 ∧
    pyParseIntStr "_1" = none := by
  refine ⟨rfl, rfl, ?_, sync_multipliers_eq_spec _ _ (construir_ids_id_nodup s),
    by decide, by decide, by decide, by decide, by decide, by decide, by decide,
    by decide, by decide⟩
  simp [dm_emit, uniform_count]

theorem wash_id_head (s : RunState) : (wash_id s).data.head? = some 'W' := by
  unfold wash_id
  by_cases h : s.texto_wash.pyStrip ≠ ""
  · have hd : "Wash (".data = ['W', 'a', 's', 'h', ' ', '('] := rfl
    simp [h, String.data_append, hd]
  · simp [h]

theorem blanco_id_head (s : RunState) : (blanco_id s).data.head? = some 'B' := by
  unfold blanco_id
  by_cases h : s.texto_blanco.pyStrip ≠ ""
  · have hd : "Blanco (".data = ['B', 'l', 'a', 'n', 'c', 'o', ' ', '('] := rfl
    simp [h, String.data_append, hd]
  · simp [h]

theorem wash_ne_blanco (s : RunState) : wash_id s ≠ blanco_id s := by
  intro h
  have hw := wash_id_head s
  rw [h, blanco_id_head s] at hw
  exact absurd hw (by decide)

/-- **C10.** The Wash identity is built with type `"blank"` (not a
distinct wash type), so color assignment maps it — like the Blanco
identity — to the reserved blank color, for every configuration and
every `washLabelSuffix`. -/
theorem C10_wash_blank_color (s : RunState) :
    (⟨wash_id s, "blank", none⟩ : VialItem) ∈ construir_ids_viales_from_state s ∧
    pyDictGet (assign_colors_for_ids (construir_ids_viales_from_state s)
        s.id_color_map s.lote_color_map s.lotes.length).1 (wash_id s) =
      some BLANCO_COLOR ∧
    pyDictGet (assign_colors_for_ids (construir_ids_viales_from_state s)
        s.id_color_map s.lote_color_map s.lotes.length).1 (blanco_id s) =
      some BLANCO_COLOR := by
  have hne := wash_ne_blanco s
  obtain ⟨rest, hrest⟩ : ∃ rest, construir_items_raw s =
      ⟨blanco_id s, "blank", none⟩ :: ⟨wash_id s, "blank", none⟩ :: rest := ⟨_, rfl⟩
  have hitems : construir_ids_viales_from_state s =
      ⟨blanco_id s, "blank", none⟩ :: ⟨wash_id s, "blank", none⟩ ::
        dedup_items rest [wash_id s, blanco_id s] := by
    unfold construir_ids_viales_from_state
    rw [hrest]
    simp [dedup_items, hne]
  have hmemw : (⟨wash_id s, "blank", none⟩ : VialItem) ∈
      construir_ids_viales_from_state s := by
    rw [hitems]
    exact List.mem_cons_of_mem _ (List.mem_cons_self _ _)
  have hmemb : (⟨blanco_id s, "blank", none⟩ : VialItem) ∈
      construir_ids_viales_from_state s := by
    rw [hitems]
    exact List.mem_cons_self _ _
  have hnd := construir_ids_id_nodup s
  refine ⟨hmemw, ?_, ?_⟩
  · simp only [assign_colors_for_ids]
    exact assign_fold_get_mem (construir_ids_viales_from_state s)
      (ensure_lote_map s.lotes.length s.lote_color_map) s.id_color_map hnd
      ⟨wash_id s, "blank", none⟩ hmemw BLANCO_COLOR rfl
  · simp only [assign_colors_for_ids]
    exact assign_fold_get_mem (construir_ids_viales_from_state s)
      (ensure_lote_map s.lotes.length s.lote_color_map) s.id_color_map hnd
      ⟨blanco_id s, "blank", none⟩ hmemb BLANCO_COLOR rfl

end Etiquetador
